import Mathlib

/-!
Verification development for the GreenTensor repository.

The repository is a Streamlit dashboard (`main.py`, `components.py`) over a
synthetic data module (`utils.py`).  The spec's core — the optimal-window
search (`find_optimal_window`) and the savings calculator (`compute_savings`)
— is described only in the spec; the repository sources contain no such
functions, so those two operations are modelled from the spec's words.
Everything about the series generator (`generate_mock_data`), the regional
profile table (`REGION_PROFILES`, `get_regional_profile`) is embedded
directly from `utils.py`.

Numeric modelling: Python floats are modelled as rationals (ℚ); Python
`int(x)` truncation toward zero is `pyInt`; `round(x, 2)` is `round2`.
Timestamps are modelled in units of hours (an integer number of hours since
a midnight-aligned epoch), so a step of one hour is `+ 1`.
-/

namespace GreenTensor

/-- One hour of the series: `timestamp` (in hours), `carbon_intensity`
(gCO2/kWh) and `price` (currency/kWh), as in spec §3. -/
structure TimePoint where
  timestamp : ℤ
  carbon_intensity : ℚ
  price : ℚ
  deriving DecidableEq, Repr

/-- A series is an ordered finite sequence of time points (spec §3). -/
abbrev Series := List TimePoint

/-- The contiguous sub-range `series[i : i+d]` of a series (Python slice). -/
def windowSlice (s : Series) (i d : ℕ) : Series :=
  (s.drop i).take d

/-- Arithmetic mean of `carbon_intensity` over the window `[i, i+d)`. -/
def avgCarbonWindow (s : Series) (i d : ℕ) : ℚ :=
  ((windowSlice s i d).map TimePoint.carbon_intensity).sum / d

/-- Arithmetic mean of `price` over the window `[i, i+d)`. -/
def avgPriceWindow (s : Series) (i d : ℕ) : ℚ :=
  ((windowSlice s i d).map TimePoint.price).sum / d

/-- Left-to-right scan of the indices `0, 1, …, n-1`, keeping the current
best index and replacing it only on a strict `<` — the first occurrence of
the minimum wins, exactly the tie-break the spec prescribes (§4.1). -/
def firstArgmin (f : ℕ → ℚ) : ℕ → ℕ
  | 0 => 0
  | n + 1 =>
    let r := firstArgmin f n
    if f n < f r then n else r

/-- The single error kind of the core (spec §7). -/
inductive CoreError where
  | WindowTooLong
  deriving DecidableEq, Repr

/-- The winning window descriptor plus its aggregates (spec §3). -/
structure OptimizationResult where
  start_index : ℕ
  start_time : ℤ
  end_time : ℤ
  avg_carbon : ℚ
  avg_price : ℚ
  deriving DecidableEq, Repr

/-- Default time point used only to read a timestamp out of a list. -/
def defaultTP : TimePoint := ⟨0, 0, 0⟩

/-- Modelled from the spec: `find_optimal_window` (spec §4.1, §6) is absent
from the repository sources; this definition follows the spec's contract:
if `duration_hours > len(series)` fail with `WindowTooLong`; otherwise scan
every feasible start index `i ∈ [0, len - d]` left to right and keep the
window with the strictly smallest mean carbon intensity (first minimum
wins). -/
def find_optimal_window (s : Series) (d : ℕ) : Except CoreError OptimizationResult :=
  if s.length < d then
    .error .WindowTooLong
  else
    let n := s.length - d + 1
    let i := firstArgmin (fun j => avgCarbonWindow s j d) n
    let st := ((s.drop i).headD defaultTP).timestamp
    .ok { start_index := i
          start_time := st
          end_time := st + d
          avg_carbon := avgCarbonWindow s i d
          avg_price := avgPriceWindow s i d }

/-- Savings figures (spec §4.2). -/
structure SavingsResult where
  financial_savings : ℚ
  carbon_saved : ℚ
  optimal_start_time : ℤ
  optimal_end_time : ℤ
  deriving DecidableEq, Repr

/-- Modelled from the spec: `compute_savings` (spec §4.2, §6) is absent from
the repository sources; this definition follows the spec's contract: the
baseline window is `series[0 : d]`; if `duration_hours > len(series)` the
computation fails with `WindowTooLong`, a `WindowTooLong` in the passed
optimization result is propagated, and otherwise
`financial_savings = cost_now - cost_smart` and
`carbon_saved = (mean baseline carbon - optimal avg_carbon) * energy`,
neither clamped. -/
def compute_savings (s : Series) (d : ℕ) (power_draw_kw : ℚ)
    (opt : Except CoreError OptimizationResult) : Except CoreError SavingsResult :=
  if s.length < d then
    .error .WindowTooLong
  else
    match opt with
    | .error e => .error e
    | .ok o =>
      let energy_kwh := power_draw_kw * (d : ℚ)
      let cost_now := avgPriceWindow s 0 d * energy_kwh
      let cost_smart := o.avg_price * energy_kwh
      .ok { financial_savings := cost_now - cost_smart
            carbon_saved := (avgCarbonWindow s 0 d - o.avg_carbon) * energy_kwh
            optimal_start_time := o.start_time
            optimal_end_time := o.end_time }

/-- Checks that consecutive timestamps step by exactly one hour. -/
def hourlyStepsB : Series → Bool
  | [] => true
  | [_] => true
  | a :: b :: rest => (b.timestamp == a.timestamp + 1) && hourlyStepsB (b :: rest)

/-- Strictly ascending hourly-stepped timestamps (spec §3). -/
def hourlySteps (s : Series) : Prop :=
  hourlyStepsB s = true

instance (s : Series) : Decidable (hourlySteps s) :=
  inferInstanceAs (Decidable (hourlyStepsB s = true))

theorem firstArgmin_lt (f : ℕ → ℚ) (n : ℕ) (hn : 0 < n) : firstArgmin f n < n := by
  induction n with
  | zero => exact absurd hn (lt_irrefl 0)
  | succ m ih =>
    simp only [firstArgmin]
    split
    · exact Nat.lt_succ_self m
    · rcases Nat.eq_zero_or_pos m with hm | hm
      · subst hm
        simp [firstArgmin]
      · exact Nat.lt_succ_of_lt (ih hm)

theorem firstArgmin_min (f : ℕ → ℚ) (n : ℕ) :
    ∀ i < n, f (firstArgmin f n) ≤ f i := by
  induction n with
  | zero => intro i hi; exact absurd hi (Nat.not_lt_zero i)
  | succ m ih =>
    intro i hi
    simp only [firstArgmin]
    split
    · rename_i hlt
      rcases Nat.lt_succ_iff_lt_or_eq.mp hi with hi' | hi'
      · exact le_trans (le_of_lt hlt) (ih i hi')
      · subst hi'; exact le_refl _
    · rename_i hnlt
      rcases Nat.lt_succ_iff_lt_or_eq.mp hi with hi' | hi'
      · exact ih i hi'
      · subst hi'; exact le_of_not_lt hnlt

theorem firstArgmin_first (f : ℕ → ℚ) (n : ℕ) :
    ∀ j < firstArgmin f n, f (firstArgmin f n) < f j := by
  induction n with
  | zero => intro j hj; simp [firstArgmin] at hj
  | succ m ih =>
    intro j hj
    simp only [firstArgmin] at hj ⊢
    split
    · rename_i hlt
      simp only [if_pos hlt] at hj
      exact lt_of_lt_of_le hlt (firstArgmin_min f m j hj)
    · rename_i hnlt
      simp only [if_neg hnlt] at hj
      exact ih j hj

/-- Unfolding of `find_optimal_window` on a feasible duration. -/
theorem find_optimal_window_ok (s : Series) (d : ℕ) (hlen : d ≤ s.length) :
    find_optimal_window s d = .ok
      { start_index := firstArgmin (fun j => avgCarbonWindow s j d) (s.length - d + 1)
        start_time :=
          ((s.drop (firstArgmin (fun j => avgCarbonWindow s j d) (s.length - d + 1))).headD
            defaultTP).timestamp
        end_time :=
          ((s.drop (firstArgmin (fun j => avgCarbonWindow s j d) (s.length - d + 1))).headD
            defaultTP).timestamp + d
        avg_carbon :=
          avgCarbonWindow s (firstArgmin (fun j => avgCarbonWindow s j d) (s.length - d + 1)) d
        avg_price :=
          avgPriceWindow s (firstArgmin (fun j => avgCarbonWindow s j d) (s.length - d + 1)) d } := by
  unfold find_optimal_window
  rw [if_neg (not_lt.mpr hlen)]

/-- A list whose elements are all `c` sums to `length * c`. -/
theorem list_sum_const (c : ℚ) : ∀ l : List ℚ, (∀ x ∈ l, x = c) → l.sum = l.length * c
  | [], _ => by simp
  | x :: xs, h => by
    have hx : x = c := h x (List.mem_cons_self x xs)
    have hxs := list_sum_const c xs (fun y hy => h y (List.mem_cons_of_mem x hy))
    rw [List.sum_cons, hx, hxs, List.length_cons]
    push_cast
    ring

/-- The length of a feasible window slice is exactly `d`. -/
theorem windowSlice_length (s : Series) (i d : ℕ) (hid : i + d ≤ s.length) :
    (windowSlice s i d).length = d := by
  simp [windowSlice]
  omega

/-- Every point of a window slice is a point of the series. -/
theorem windowSlice_subset (s : Series) (i d : ℕ) :
    ∀ p ∈ windowSlice s i d, p ∈ s := by
  intro p hp
  exact List.drop_subset i s (List.take_subset d (s.drop i) hp)

/-- Window mean of a field that is constant on the series. -/
theorem window_avg_const (f : TimePoint → ℚ) (s : Series) (c : ℚ)
    (hc : ∀ p ∈ s, f p = c) (i d : ℕ) (hd : 0 < d) (hid : i + d ≤ s.length) :
    ((windowSlice s i d).map f).sum / d = c := by
  have hall : ∀ x ∈ (windowSlice s i d).map f, x = c := by
    intro x hx
    rcases List.mem_map.mp hx with ⟨p, hp, hfp⟩
    rw [← hfp]
    exact hc p (windowSlice_subset s i d p hp)
  have hsum := list_sum_const c _ hall
  rw [hsum, List.length_map, windowSlice_length s i d hid]
  have hdq : (d : ℚ) ≠ 0 := Nat.cast_ne_zero.mpr (by omega)
  field_simp

/-- C1: on every non-empty ascending hourly series and feasible positive
duration, `find_optimal_window` returns a window whose `avg_carbon` is ≤ the
`avg_carbon` of every feasible contiguous window of that length. -/
theorem claim_C1_window_optimality (s : Series) (d : ℕ)
    (_hne : s ≠ []) (_hasc : hourlySteps s) (_hd : 0 < d) (hlen : d ≤ s.length) :
    ∃ r, find_optimal_window s d = .ok r ∧
      r.start_index + d ≤ s.length ∧
      r.avg_carbon = avgCarbonWindow s r.start_index d ∧
      ∀ j, j + d ≤ s.length → r.avg_carbon ≤ avgCarbonWindow s j d := by
  refine ⟨_, find_optimal_window_ok s d hlen, ?_, rfl, ?_⟩
  · dsimp only
    have := firstArgmin_lt (fun j => avgCarbonWindow s j d) (s.length - d + 1) (by omega)
    omega
  · intro j hj
    exact firstArgmin_min (fun j => avgCarbonWindow s j d) (s.length - d + 1) j (by omega)

/-- Witness for C1 at the spec's §8 concrete scenario. -/
theorem claim_C1_window_optimality_witness :
    ∃ r, find_optimal_window
        [⟨0, 500, 10⟩, ⟨1, 500, 10⟩, ⟨2, 100, 10⟩, ⟨3, 100, 10⟩, ⟨4, 500, 10⟩, ⟨5, 500, 10⟩]
        2 = .ok r ∧
      r.start_index + 2 ≤ 6 ∧
      r.avg_carbon = avgCarbonWindow
        [⟨0, 500, 10⟩, ⟨1, 500, 10⟩, ⟨2, 100, 10⟩, ⟨3, 100, 10⟩, ⟨4, 500, 10⟩, ⟨5, 500, 10⟩]
        r.start_index 2 ∧
      ∀ j, j + 2 ≤ 6 → r.avg_carbon ≤ avgCarbonWindow
        [⟨0, 500, 10⟩, ⟨1, 500, 10⟩, ⟨2, 100, 10⟩, ⟨3, 100, 10⟩, ⟨4, 500, 10⟩, ⟨5, 500, 10⟩] j 2 :=
  claim_C1_window_optimality
    [⟨0, 500, 10⟩, ⟨1, 500, 10⟩, ⟨2, 100, 10⟩, ⟨3, 100, 10⟩, ⟨4, 500, 10⟩, ⟨5, 500, 10⟩]
    2 (by decide) (by decide) (by decide) (by decide)

/-- C2: whenever the requested duration exceeds the series length, both
`find_optimal_window` and `compute_savings` yield `WindowTooLong`, and
`WindowTooLong` is the only error kind either operation ever produces. -/
theorem claim_C2_window_too_long :
    (∀ (s : Series) (d : ℕ), s.length < d →
        find_optimal_window s d = .error .WindowTooLong) ∧
    (∀ (s : Series) (d : ℕ) (p : ℚ) (opt : Except CoreError OptimizationResult),
        s.length < d → compute_savings s d p opt = .error .WindowTooLong) ∧
    (∀ (s : Series) (d : ℕ) (e : CoreError),
        find_optimal_window s d = .error e → e = .WindowTooLong) ∧
    (∀ (s : Series) (d : ℕ) (p : ℚ) (opt : Except CoreError OptimizationResult) (e : CoreError),
        compute_savings s d p opt = .error e → e = .WindowTooLong) := by
  refine ⟨?_, ?_, ?_, ?_⟩
  · intro s d h
    unfold find_optimal_window
    rw [if_pos h]
  · intro s d p opt h
    unfold compute_savings
    rw [if_pos h]
  · intro s d e _
    cases e
    rfl
  · intro s d p opt e _
    cases e
    rfl

/-- Witness for C2: a 24-point infeasibility is the spec's own scenario;
here the empty series with duration 1 suffices. -/
theorem claim_C2_window_too_long_witness :
    find_optimal_window [] 1 = .error .WindowTooLong ∧
    compute_savings [] 1 0 (.error .WindowTooLong) = .error .WindowTooLong :=
  ⟨claim_C2_window_too_long.1 [] 1 (by decide),
   claim_C2_window_too_long.2.1 [] 1 0 (.error .WindowTooLong) (by decide)⟩

/-- C3: when two or more feasible windows tie for the minimum average
carbon, `find_optimal_window` returns the earliest-starting one: its
average is minimal and every feasible window achieving that average starts
no earlier. -/
theorem claim_C3_tie_break (s : Series) (d : ℕ) (_hd : 0 < d) (hlen : d ≤ s.length)
    (htie : ∃ i j, i < j ∧ j + d ≤ s.length ∧
        avgCarbonWindow s i d = avgCarbonWindow s j d ∧
        ∀ k, k + d ≤ s.length → avgCarbonWindow s i d ≤ avgCarbonWindow s k d) :
    ∃ r, find_optimal_window s d = .ok r ∧
      r.avg_carbon = avgCarbonWindow s r.start_index d ∧
      (∀ k, k + d ≤ s.length → r.avg_carbon ≤ avgCarbonWindow s k d) ∧
      ∀ k, k + d ≤ s.length → avgCarbonWindow s k d = r.avg_carbon → r.start_index ≤ k := by
  refine ⟨_, find_optimal_window_ok s d hlen, rfl, ?_, ?_⟩
  · intro k hk
    exact firstArgmin_min (fun j => avgCarbonWindow s j d) (s.length - d + 1) k (by omega)
  · intro k _ hkeq
    dsimp only at hkeq ⊢
    by_contra hnle
    push_neg at hnle
    have hfirst := firstArgmin_first (fun j => avgCarbonWindow s j d)
      (s.length - d + 1) k hnle
    dsimp only at hfirst
    rw [hkeq] at hfirst
    exact lt_irrefl _ hfirst

/-- Witness for C3 at the spec's §8 tie scenario: carbon `[200,300,200,400]`,
duration 1, indices 0 and 2 tie at the minimum 200. -/
theorem claim_C3_tie_break_witness :
    ∃ r, find_optimal_window [⟨0, 200, 10⟩, ⟨1, 300, 10⟩, ⟨2, 200, 10⟩, ⟨3, 400, 10⟩] 1 = .ok r ∧
      r.avg_carbon = avgCarbonWindow [⟨0, 200, 10⟩, ⟨1, 300, 10⟩, ⟨2, 200, 10⟩, ⟨3, 400, 10⟩]
        r.start_index 1 ∧
      (∀ k, k + 1 ≤ 4 → r.avg_carbon ≤
        avgCarbonWindow [⟨0, 200, 10⟩, ⟨1, 300, 10⟩, ⟨2, 200, 10⟩, ⟨3, 400, 10⟩] k 1) ∧
      ∀ k, k + 1 ≤ 4 →
        avgCarbonWindow [⟨0, 200, 10⟩, ⟨1, 300, 10⟩, ⟨2, 200, 10⟩, ⟨3, 400, 10⟩] k 1 =
          r.avg_carbon → r.start_index ≤ k :=
  claim_C3_tie_break [⟨0, 200, 10⟩, ⟨1, 300, 10⟩, ⟨2, 200, 10⟩, ⟨3, 400, 10⟩] 1
    (by decide) (by decide)
    ⟨0, 2, by decide, by decide,
     by norm_num [avgCarbonWindow, windowSlice], by
      intro k hk
      have hk' : k ≤ 3 := by
        simp only [List.length_cons, List.length_nil] at hk
        omega
      interval_cases k <;> norm_num [avgCarbonWindow, windowSlice]⟩

/-- C4: `compute_savings` reports `financial_savings = cost_now - cost_smart`
and `carbon_saved` unclamped, and on a flat series (constant carbon and
price) both savings are exactly 0 for every feasible positive duration. -/
theorem claim_C4_savings_unclamped :
    (∀ (s : Series) (d : ℕ) (power : ℚ) (o : OptimizationResult),
        d ≤ s.length →
        compute_savings s d power (.ok o) = .ok
          { financial_savings :=
              avgPriceWindow s 0 d * (power * d) - o.avg_price * (power * d)
            carbon_saved := (avgCarbonWindow s 0 d - o.avg_carbon) * (power * d)
            optimal_start_time := o.start_time
            optimal_end_time := o.end_time }) ∧
    (∀ (s : Series) (d : ℕ) (power c pr : ℚ),
        (∀ p ∈ s, p.carbon_intensity = c ∧ p.price = pr) →
        0 < d → d ≤ s.length →
        ∃ r, compute_savings s d power (find_optimal_window s d) = .ok r ∧
          r.financial_savings = 0 ∧ r.carbon_saved = 0) := by
  constructor
  · intro s d power o hlen
    unfold compute_savings
    rw [if_neg (not_lt.mpr hlen)]
  · intro s d power c pr hflat hd hlen
    have hi : firstArgmin (fun j => avgCarbonWindow s j d) (s.length - d + 1) + d ≤ s.length := by
      have := firstArgmin_lt (fun j => avgCarbonWindow s j d) (s.length - d + 1) (by omega)
      omega
    have hcarb : ∀ i, i + d ≤ s.length → avgCarbonWindow s i d = c := by
      intro i hid
      exact window_avg_const TimePoint.carbon_intensity s c
        (fun p hp => (hflat p hp).1) i d hd hid
    have hpri : ∀ i, i + d ≤ s.length → avgPriceWindow s i d = pr := by
      intro i hid
      exact window_avg_const TimePoint.price s pr
        (fun p hp => (hflat p hp).2) i d hd hid
    rw [find_optimal_window_ok s d hlen]
    unfold compute_savings
    rw [if_neg (not_lt.mpr hlen)]
    refine ⟨_, rfl, ?_, ?_⟩
    · dsimp only
      rw [hpri _ (by omega : 0 + d ≤ s.length), hpri _ hi]
      ring
    · dsimp only
      rw [hcarb _ (by omega : 0 + d ≤ s.length), hcarb _ hi]
      ring

/-- Witness for C4 on a concrete flat series (carbon 5, price 7). -/
theorem claim_C4_savings_unclamped_witness :
    compute_savings [⟨0, 5, 7⟩, ⟨1, 5, 7⟩, ⟨2, 5, 7⟩] 2 10 (.ok ⟨0, 0, 2, 5, 7⟩) = .ok
      { financial_savings :=
          avgPriceWindow [⟨0, 5, 7⟩, ⟨1, 5, 7⟩, ⟨2, 5, 7⟩] 0 2 * (10 * 2) - 7 * (10 * 2)
        carbon_saved := (avgCarbonWindow [⟨0, 5, 7⟩, ⟨1, 5, 7⟩, ⟨2, 5, 7⟩] 0 2 - 5) * (10 * 2)
        optimal_start_time := 0
        optimal_end_time := 2 } ∧
    ∃ r, compute_savings [⟨0, 5, 7⟩, ⟨1, 5, 7⟩, ⟨2, 5, 7⟩] 2 10
        (find_optimal_window [⟨0, 5, 7⟩, ⟨1, 5, 7⟩, ⟨2, 5, 7⟩] 2) = .ok r ∧
      r.financial_savings = 0 ∧ r.carbon_saved = 0 :=
  ⟨claim_C4_savings_unclamped.1 [⟨0, 5, 7⟩, ⟨1, 5, 7⟩, ⟨2, 5, 7⟩] 2 10 ⟨0, 0, 2, 5, 7⟩ (by decide),
   claim_C4_savings_unclamped.2 [⟨0, 5, 7⟩, ⟨1, 5, 7⟩, ⟨2, 5, 7⟩] 2 10 5 7
     (by decide) (by decide) (by decide)⟩

/-! ### Embedding of `utils.py` -/

/-- One entry of `REGION_PROFILES` in `utils.py`: base carbon, amplitude,
solar potential, currency symbol and dominant-source bias. -/
structure Profile where
  base : ℚ
  amp : ℚ
  solar : ℚ
  currency : String
  mix_bias : String
  deriving DecidableEq, Repr

/-- The `"Asia-Pacific (Mumbai)"` profile of `utils.py`. -/
def mumbaiProfile : Profile := ⟨700, 150, 1, "₹", "Coal"⟩

/-- The `"US-East (N. Virginia)"` profile of `utils.py`. -/
def virginiaProfile : Profile := ⟨400, 100, 1/2, "$", "Gas"⟩

/-- The `"Europe (Stockholm)"` profile of `utils.py`. -/
def stockholmProfile : Profile := ⟨40, 20, 1/5, "€", "Hydro"⟩

/-- The `REGION_PROFILES` dict of `utils.py`, as an association list. -/
def REGION_PROFILES : List (String × Profile) :=
  [("Asia-Pacific (Mumbai)", mumbaiProfile),
   ("US-East (N. Virginia)", virginiaProfile),
   ("Europe (Stockholm)", stockholmProfile)]

/-- `get_regional_profile` of `utils.py`:
`REGION_PROFILES.get(region_name, REGION_PROFILES["Asia-Pacific (Mumbai)"])`. -/
def get_regional_profile (region_name : String) : Profile :=
  (REGION_PROFILES.lookup region_name).getD mumbaiProfile

/-- The ambient global pseudo-random state the Python code manipulates:
the numpy global generator (abstracted as the last seed set plus the number
of draws made since) and the `random` module's last seed. -/
structure Globals where
  np_seed : ℕ
  np_pos : ℕ
  py_seed : Option ℕ
  deriving DecidableEq, Repr

/-- The numeric primitives of numpy the generator calls, kept abstract:
`sinpi q` models `np.sin(q * π)`; `normalDraw mu sigma s p` is the value
`np.random.normal(mu, sigma)` returns when the global state is (seed `s`,
position `p`); `randintDraw lo hi s p` likewise for
`np.random.randint(lo, hi)`.  Theorems quantify over every such model. -/
structure NumpyModel where
  sinpi : ℚ → ℚ
  normalDraw : ℚ → ℚ → ℕ → ℕ → ℚ
  randintDraw : ℤ → ℤ → ℕ → ℕ → ℤ

/-- `np.random.normal(mu, sigma)`: returns a value and advances the global
numpy state by one draw. -/
def npNormal (M : NumpyModel) (mu sigma : ℚ) (g : Globals) : ℚ × Globals :=
  (M.normalDraw mu sigma g.np_seed g.np_pos, { g with np_pos := g.np_pos + 1 })

/-- `np.random.randint(lo, hi)`: returns a value and advances the global
numpy state by one draw. -/
def npRandint (M : NumpyModel) (lo hi : ℤ) (g : Globals) : ℤ × Globals :=
  (M.randintDraw lo hi g.np_seed g.np_pos, { g with np_pos := g.np_pos + 1 })

/-- Python `int(x)`: truncation toward zero. -/
def pyInt (q : ℚ) : ℤ := if 0 ≤ q then ⌊q⌋ else ⌈q⌉

/-- Python `round(x, 2)`: rounding to two decimal places. -/
def round2 (q : ℚ) : ℚ := (round (q * 100) : ℤ) / 100

/-- One row of the DataFrame `generate_mock_data` builds. -/
structure GenPoint where
  timestamp : ℤ
  carbon_intensity : ℤ
  price : ℚ
  grid_mix : List (String × ℤ)
  deriving DecidableEq, Repr

/-- Default row, used only as the `getD` fallback. -/
def defaultGP : GenPoint := ⟨0, 0, 0, []⟩

/-- The grid-mix generation block of `generate_mock_data` (`utils.py`):
branches on the profile's `mix_bias`; `val` is the (clamped) carbon value
and `h` the hour of day. -/
def gridMix (M : NumpyModel) (profile : Profile) (val : ℚ) (h : ℤ) (g : Globals) :
    List (String × ℤ) × Globals :=
  if profile.mix_bias = "Coal" then
    let coal := min 90 (max 40 (val / 900 * 100))
    let solar : ℚ := if 6 ≤ h ∧ h ≤ 18 then max 0 (30 * M.sinpi (((h : ℚ) - 6) / 12)) else 0
    let rem := 100 - coal - solar
    let wind := rem * (3/10)
    let gas := rem * (7/10)
    ([("Coal", pyInt coal), ("Solar", pyInt solar), ("Gas", pyInt gas), ("Wind", pyInt wind)], g)
  else if profile.mix_bias = "Hydro" then
    let r1 := npRandint M (-5) 5 g
    let hydro : ℚ := 70 + (r1.1 : ℚ)
    let r2 := npRandint M (-5) 5 r1.2
    let wind : ℚ := 20 + (r2.1 : ℚ)
    let solar : ℚ := if 6 ≤ h ∧ h ≤ 18 then 5 else 0
    let rem := 100 - hydro - wind - solar
    let hydro2 := if rem < 0 then hydro + rem else hydro
    let rem2 := if rem < 0 then (0 : ℚ) else rem
    ([("Hydro", pyInt hydro2), ("Wind", pyInt wind), ("Solar", pyInt solar),
      ("Nuclear", pyInt rem2)], r2.2)
  else
    let gas := 40 + val / 500 * 20
    let nuclear : ℚ := 20
    let solar : ℚ := if 6 ≤ h ∧ h ≤ 18 then 20 * M.sinpi (((h : ℚ) - 6) / 12) else 0
    let rem := 100 - gas - nuclear - solar
    let wind := max 0 rem
    ([("Gas", pyInt gas), ("Nuclear", pyInt nuclear), ("Solar", pyInt solar),
      ("Wind", pyInt wind)], g)

/-- One iteration of the 24-hour loop in `generate_mock_data` (`utils.py`):
`dt = now + i hours`, `h = dt.hour`, carbon sine wave plus normal noise
clamped at 10, price derived from the clamped carbon value clamped at 0.5
and rounded to 2 decimals, then the grid mix. -/
def genHour (M : NumpyModel) (profile : Profile) (now : ℤ) (i : ℕ) (g : Globals) :
    GenPoint × Globals :=
  let ts := now + (i : ℤ)
  let h := (now + (i : ℤ)) % 24
  let wave := M.sinpi (2 * ((h : ℚ) - 13) / 24)
  let n1 := npNormal M 0 20 g
  let val0 := profile.base + profile.amp * wave + n1.1
  let val := max 10 val0
  let carbon := pyInt val
  let n2 := npNormal M 0 (1/2) n1.2
  let price := val / 100 + 2 + n2.1
  let priceR := round2 (max (1/2) price)
  let mix := gridMix M profile val h n2.2
  (⟨ts, carbon, priceR, mix.1⟩, mix.2)

/-- The loop of `generate_mock_data` over the hour indices, threading the
global random state left to right. -/
def genLoop (M : NumpyModel) (profile : Profile) (now : ℤ) :
    List ℕ → Globals → List GenPoint × Globals
  | [], g => ([], g)
  | i :: rest, g =>
    let pg := genHour M profile now i g
    let tail := genLoop M profile now rest pg.2
    (pg.1 :: tail.1, tail.2)

/-- The seeding prologue of `generate_mock_data`: with a seed,
`np.random.seed(seed); random.seed(seed)` replace the ambient global state;
with `None` the ambient state is used as-is. -/
def seedGlobals (seed : Option ℕ) (g0 : Globals) : Globals :=
  match seed with
  | some s => { np_seed := s, np_pos := 0, py_seed := some s }
  | none => g0

/-- `generate_mock_data` of `utils.py`.  Its Python signature is
`generate_mock_data(region="Asia-Pacific (Mumbai)", seed=None)` — there is
no length parameter; the ambient inputs it reads (`datetime.now()`
truncated to the hour, modelled as `now` in hours, and the global random
state `g0`) and the numpy primitives `M` are passed explicitly.  Returns
the 24 generated rows together with the final global random state. -/
def generate_mock_data (M : NumpyModel) (region : String) (seed : Option ℕ)
    (now : ℤ) (g0 : Globals) : List GenPoint × Globals :=
  genLoop M (get_regional_profile region) now (List.range 24) (seedGlobals seed g0)

/-- A concrete instantiation of the numpy primitives, for evaluation. -/
def zeroModel : NumpyModel := ⟨fun _ => 0, fun _ _ _ _ => 0, fun lo _ _ _ => lo⟩

/-- A concrete ambient global state, for evaluation. -/
def g00 : Globals := ⟨0, 0, none⟩

/-- The generated point's timestamp is the clock hour plus the loop index. -/
theorem genHour_timestamp (M : NumpyModel) (profile : Profile) (now : ℤ) (i : ℕ)
    (g : Globals) : ((genHour M profile now i g).1).timestamp = now + i := rfl

theorem genLoop_length (M : NumpyModel) (profile : Profile) (now : ℤ) :
    ∀ (l : List ℕ) (g : Globals), ((genLoop M profile now l g).1).length = l.length
  | [], _ => rfl
  | i :: rest, g => by
    simp only [genLoop, List.length_cons]
    rw [genLoop_length M profile now rest]

theorem generate_mock_data_length (M : NumpyModel) (region : String) (seed : Option ℕ)
    (now : ℤ) (g0 : Globals) : ((generate_mock_data M region seed now g0).1).length = 24 := by
  unfold generate_mock_data
  rw [genLoop_length, List.length_range]

theorem genLoop_getD_timestamp (M : NumpyModel) (profile : Profile) (now : ℤ) :
    ∀ (l : List ℕ) (g : Globals) (i : ℕ), i < l.length →
      (((genLoop M profile now l g).1).getD i defaultGP).timestamp = now + (l.getD i 0)
  | [], _, i, hi => by simp at hi
  | a :: rest, g, 0, _ => by
    simp only [genLoop, List.getD_cons_zero]
    exact genHour_timestamp M profile now a g
  | a :: rest, g, i + 1, hi => by
    simp only [genLoop, List.getD_cons_succ]
    exact genLoop_getD_timestamp M profile now rest _ i (by simpa using hi)

theorem range_getD (n i : ℕ) (h : i < n) : (List.range n).getD i 0 = i := by
  rw [List.getD_eq_getElem?_getD, List.getElem?_range h, Option.getD_some]

/-- An in-range `getD` is a member of the list. -/
theorem getD_mem {α : Type} (l : List α) (i : ℕ) (d : α) (h : i < l.length) :
    l.getD i d ∈ l := by
  rw [List.getD_eq_getElem?_getD, List.getElem?_eq_getElem h, Option.getD_some]
  exact List.getElem_mem h

/-- Timestamp of the `i`-th generated row. -/
theorem generate_mock_data_timestamp (M : NumpyModel) (region : String)
    (seed : Option ℕ) (now : ℤ) (g0 : Globals) (i : ℕ) (hi : i < 24) :
    (((generate_mock_data M region seed now g0).1).getD i defaultGP).timestamp = now + i := by
  unfold generate_mock_data
  rw [genLoop_getD_timestamp M (get_regional_profile region) now (List.range 24) _ i
    (by simpa using hi), range_getD 24 i hi]

/-- C7: consecutive timestamps of every generated series are strictly
increasing with a fixed step of exactly one hour (timestamps are in hours,
so one hour is `+ 1`). -/
theorem claim_C7_hourly_timestamps (M : NumpyModel) (region : String) (seed : Option ℕ)
    (now : ℤ) (g0 : Globals) (i : ℕ) (hi : i + 1 < 24) :
    (((generate_mock_data M region seed now g0).1).getD i defaultGP).timestamp <
      (((generate_mock_data M region seed now g0).1).getD (i + 1) defaultGP).timestamp ∧
    (((generate_mock_data M region seed now g0).1).getD (i + 1) defaultGP).timestamp =
      (((generate_mock_data M region seed now g0).1).getD i defaultGP).timestamp + 1 := by
  rw [generate_mock_data_timestamp M region seed now g0 i (by omega),
    generate_mock_data_timestamp M region seed now g0 (i + 1) hi]
  constructor
  · push_cast
    omega
  · push_cast
    ring

/-- Witness for C7 at a concrete model and the first pair of rows. -/
theorem claim_C7_hourly_timestamps_witness :
    (((generate_mock_data zeroModel "Asia-Pacific (Mumbai)" none 0 g00).1).getD 0
        defaultGP).timestamp <
      (((generate_mock_data zeroModel "Asia-Pacific (Mumbai)" none 0 g00).1).getD 1
        defaultGP).timestamp ∧
    (((generate_mock_data zeroModel "Asia-Pacific (Mumbai)" none 0 g00).1).getD 1
        defaultGP).timestamp =
      (((generate_mock_data zeroModel "Asia-Pacific (Mumbai)" none 0 g00).1).getD 0
        defaultGP).timestamp + 1 :=
  claim_C7_hourly_timestamps zeroModel "Asia-Pacific (Mumbai)" none 0 g00 0 (by decide)

/-- C9: every call returns exactly 24 points; the Python signature
`generate_mock_data(region, seed)` has no length parameter, so no other
length can be requested. -/
theorem claim_C9_fixed_24_points (M : NumpyModel) (region : String) (seed : Option ℕ)
    (now : ℤ) (g0 : Globals) :
    ((generate_mock_data M region seed now g0).1).length = 24 :=
  generate_mock_data_length M region seed now g0

/-- A lower bound on the Python truncation `int(q)`. -/
theorem pyInt_ge (n : ℤ) (q : ℚ) (hn : 0 ≤ n) (hq : (n : ℚ) ≤ q) : n ≤ pyInt q := by
  unfold pyInt
  rw [if_pos (le_trans (by exact_mod_cast hn) hq)]
  exact Int.le_floor.mpr hq

/-- `round(·, 2)` keeps values that are at least 1/2 at least 1/2. -/
theorem round2_ge_half (q : ℚ) (h : 1/2 ≤ q) : 1/2 ≤ round2 q := by
  unfold round2
  have h50 : (50 : ℤ) ≤ round (q * 100) := by
    rw [round_eq]
    refine Int.le_floor.mpr ?_
    push_cast
    linarith
  have h50q : (50 : ℚ) ≤ ((round (q * 100) : ℤ) : ℚ) := by exact_mod_cast h50
  linarith

/-- Carbon bound of each generated row, for every noise model. -/
theorem genHour_carbon_ge (M : NumpyModel) (profile : Profile) (now : ℤ) (i : ℕ)
    (g : Globals) : 10 ≤ ((genHour M profile now i g).1).carbon_intensity := by
  dsimp only [genHour]
  exact pyInt_ge 10 _ (by norm_num) (by push_cast; exact le_max_left 10 _)

/-- Price bound of each generated row, for every noise model. -/
theorem genHour_price_ge (M : NumpyModel) (profile : Profile) (now : ℤ) (i : ℕ)
    (g : Globals) : 1/2 ≤ ((genHour M profile now i g).1).price := by
  dsimp only [genHour]
  exact round2_ge_half _ (le_max_left _ _)

theorem genLoop_mem (M : NumpyModel) (profile : Profile) (now : ℤ) :
    ∀ (l : List ℕ) (g : Globals) (p : GenPoint), p ∈ (genLoop M profile now l g).1 →
      ∃ i g', p = (genHour M profile now i g').1
  | [], _, p, hp => by simp [genLoop] at hp
  | a :: rest, g, p, hp => by
    simp only [genLoop, List.mem_cons] at hp
    rcases hp with hp | hp
    · exact ⟨a, g, hp⟩
    · exact genLoop_mem M profile now rest _ p hp

/-- C6: every point any call of the generator produces — for every region,
seed, clock hour, ambient state and numpy model — satisfies
`carbon_intensity >= 10` and `price >= 0.5`, both clamped at generation. -/
theorem claim_C6_generator_bounds (M : NumpyModel) (region : String) (seed : Option ℕ)
    (now : ℤ) (g0 : Globals) (p : GenPoint)
    (hp : p ∈ (generate_mock_data M region seed now g0).1) :
    10 ≤ p.carbon_intensity ∧ 1/2 ≤ p.price := by
  unfold generate_mock_data at hp
  obtain ⟨i, g', rfl⟩ := genLoop_mem M (get_regional_profile region) now _ _ p hp
  exact ⟨genHour_carbon_ge M (get_regional_profile region) now i g',
    genHour_price_ge M (get_regional_profile region) now i g'⟩

/-- Witness for C6 at a concrete model, applied to the first generated row. -/
theorem claim_C6_generator_bounds_witness :
    10 ≤ (((generate_mock_data zeroModel "Asia-Pacific (Mumbai)" none 0 g00).1).getD 0
        defaultGP).carbon_intensity ∧
    1/2 ≤ (((generate_mock_data zeroModel "Asia-Pacific (Mumbai)" none 0 g00).1).getD 0
        defaultGP).price :=
  claim_C6_generator_bounds zeroModel "Asia-Pacific (Mumbai)" none 0 g00 _
    (getD_mem _ 0 defaultGP
      (by rw [generate_mock_data_length]; norm_num))

/-- C5 counterexample: two calls with identical region and identical seed
(and the same fixed length 24) made at different wall-clock hours produce
different series — the timestamps come from `datetime.now()`, not from the
parameters, so they are not bit-for-bit equal. -/
theorem claim_C5_counterexample :
    (generate_mock_data zeroModel "Asia-Pacific (Mumbai)" (some 1) 0 g00).1 ≠
      (generate_mock_data zeroModel "Asia-Pacific (Mumbai)" (some 1) 1 g00).1 := by
  decide

/-- C5 (amended): two calls with identical region, identical non-`None`
seed and identical wall-clock hour produce identical series — seeding
overwrites the ambient random state, so the result does not depend on the
global state before the call. -/
theorem claim_C5_seeded_determinism (M : NumpyModel) (region : String) (s : ℕ)
    (now : ℤ) (g0 g0' : Globals) :
    generate_mock_data M region (some s) now g0 =
      generate_mock_data M region (some s) now g0' := rfl

/-- `gridMix` only advances the draw position: it changes neither the numpy
seed nor the python-random seed components of the global state. -/
theorem gridMix_preserves (M : NumpyModel) (profile : Profile) (val : ℚ) (h : ℤ)
    (g : Globals) :
    ((gridMix M profile val h g).2).np_seed = g.np_seed ∧
    ((gridMix M profile val h g).2).py_seed = g.py_seed := by
  unfold gridMix npRandint
  split_ifs <;> exact ⟨rfl, rfl⟩

/-- `genHour` only advances the draw position of the global state. -/
theorem genHour_preserves (M : NumpyModel) (profile : Profile) (now : ℤ) (i : ℕ)
    (g : Globals) :
    ((genHour M profile now i g).2).np_seed = g.np_seed ∧
    ((genHour M profile now i g).2).py_seed = g.py_seed := by
  dsimp only [genHour, npNormal]
  constructor
  · rw [(gridMix_preserves M profile _ _ _).1]
  · rw [(gridMix_preserves M profile _ _ _).2]

theorem genLoop_preserves (M : NumpyModel) (profile : Profile) (now : ℤ) :
    ∀ (l : List ℕ) (g : Globals),
      ((genLoop M profile now l g).2).np_seed = g.np_seed ∧
      ((genLoop M profile now l g).2).py_seed = g.py_seed
  | [], _ => ⟨rfl, rfl⟩
  | a :: rest, g => by
    simp only [genLoop]
    constructor
    · rw [(genLoop_preserves M profile now rest _).1, (genHour_preserves M profile now a g).1]
    · rw [(genLoop_preserves M profile now rest _).2, (genHour_preserves M profile now a g).2]

/-- C8 counterexample: the generator reads and mutates the ambient global
random state; starting from the ambient state `⟨0, 0, none⟩`, a seeded call
leaves the globals changed. -/
theorem claim_C8_counterexample :
    (generate_mock_data zeroModel "Asia-Pacific (Mumbai)" (some 5) 0 g00).2 ≠ g00 := by
  decide

/-- C8 (amended): the generator uses the ambient global numpy and `random`
state, not an explicit source: a seeded call reseeds both global
generators (so the final global state carries the given seed) and the
final global state is fully determined by the call's parameters,
independent of the prior ambient state it overwrote. -/
theorem claim_C8_global_state (M : NumpyModel) (region : String) (s : ℕ) (now : ℤ)
    (g0 g0' : Globals) :
    ((generate_mock_data M region (some s) now g0).2).np_seed = s ∧
    ((generate_mock_data M region (some s) now g0).2).py_seed = some s ∧
    (generate_mock_data M region (some s) now g0).2 =
      (generate_mock_data M region (some s) now g0').2 := by
  refine ⟨?_, ?_, rfl⟩
  · exact (genLoop_preserves M (get_regional_profile region) now (List.range 24) _).1
  · exact (genLoop_preserves M (get_regional_profile region) now (List.range 24) _).2

/-- C10: `get_regional_profile` is total — it returns the stored profile
for a known region name and falls back to the `"Asia-Pacific (Mumbai)"`
profile for every unknown name; it never fails. -/
theorem claim_C10_profile_total :
    (∀ (r : String) (p : Profile), REGION_PROFILES.lookup r = some p →
      get_regional_profile r = p) ∧
    (∀ r : String, REGION_PROFILES.lookup r = none →
      get_regional_profile r = mumbaiProfile) := by
  constructor
  · intro r p h
    unfold get_regional_profile
    rw [h]
    rfl
  · intro r h
    unfold get_regional_profile
    rw [h]
    rfl

/-- Witness for C10: an unknown name falls back to the Mumbai profile, a
known name returns its own profile. -/
theorem claim_C10_profile_total_witness :
    get_regional_profile "Nowhere" = mumbaiProfile ∧
    get_regional_profile "Europe (Stockholm)" = stockholmProfile :=
  ⟨claim_C10_profile_total.2 "Nowhere" rfl,
   claim_C10_profile_total.1 "Europe (Stockholm)" stockholmProfile rfl⟩

end GreenTensor
